import Mathlib

/-!
Shallow embedding of `ml_metrics/_src/chainables/courier_server.py`.

Conventions of the embedding:
* wall-clock times (`time.time()` floats) are modelled as integers — only
  comparison, subtraction and `max` of times occur in this module;
* the serialization codec (`pickler.dumps`) is an opaque fallible function,
  passed as a parameter;
* a Python method that can raise returns `Except String _` (the string is the
  message), or a pair of the mutated state and an `Option String` when the
  mutation survives the raise;
* `threading.Thread` handles are opaque naturals; locks and condition
  variables are not modelled (single-threaded interleaving semantics: each
  handler runs to completion on a snapshot of the state).
* `iter_utils.IteratorQueue` is not part of this module's source; it is
  modelled from the spec (see `IteratorQueue` below).
-/

/-- `HeartbeatRegistry`: `_clients : dict[str, float]`, modelled as an
association list with dict semantics (lookup finds the first binding;
assignment overwrites in place or appends). -/
structure HeartbeatRegistry where
  clients : List (String × Int)
deriving Repr, DecidableEq

/-- `HeartbeatRegistry.get`: `self._clients.get(address, None)`. -/
def HeartbeatRegistry.get (r : HeartbeatRegistry) (address : String) : Option Int :=
  (r.clients.find? (fun kv => kv.1 == address)).map (fun kv => kv.2)

/-- Dict assignment `self._clients[address] = t`: overwrite the existing
binding, else append a new one. -/
def HeartbeatRegistry.set (r : HeartbeatRegistry) (address : String) (t : Int) :
    HeartbeatRegistry :=
  if (r.get address).isSome then
    ⟨r.clients.map (fun kv => if kv.1 == address then (kv.1, t) else kv)⟩
  else
    ⟨r.clients ++ [(address, t)]⟩

/-- `HeartbeatRegistry.update`. The Python body is

    if address in self._clients:
      self._clients[address] = max(self._clients.get(address, 0), time_)
    raise ValueError(f'address {address} is not registered.')

The `raise` is NOT under an `else`: the dict mutation (when the address is
registered) persists, and then the call raises unconditionally. The result is
the mutated registry together with the message of the raised `ValueError`
(`none` would mean a normal return; this function never returns normally). -/
def HeartbeatRegistry.update (r : HeartbeatRegistry) (address : String) (t : Int) :
    HeartbeatRegistry × Option String :=
  let r' :=
    if (r.get address).isSome then
      r.set address (max ((r.get address).getD 0) t)
    else r
  (r', some s!"address {address} is not registered.")

/-- `HeartbeatRegistry.register`: `self._clients[address] = time_`. -/
def HeartbeatRegistry.register (r : HeartbeatRegistry) (address : String) (t : Int) :
    HeartbeatRegistry :=
  r.set address t

/-- `HeartbeatRegistry.unregister`: `self._clients.pop(address, None)`. -/
def HeartbeatRegistry.unregister (r : HeartbeatRegistry) (address : String) :
    HeartbeatRegistry :=
  ⟨r.clients.filter (fun kv => kv.1 != address)⟩

/-- An opaque `courier.Server` RPC endpoint: its construction arguments, a
construction identity (so that "returns the existing endpoint without
constructing a new one" is expressible), and its started flag. -/
structure Endpoint where
  name : Option String
  port : Option Int
  eid : Nat
  hasStarted : Bool
deriving Repr, DecidableEq

/-- The mutable attributes of a `CourierServer` instance that this
development needs. -/
structure CourierState where
  serverName : Option String
  port : Option Int
  autoShutdownSecs : Int
  server : Option Endpoint
  thread : Option Nat
  lastHeartbeat : Int
  shutdownRequested : Bool
  heartbeats : HeartbeatRegistry
deriving Repr, DecidableEq

/-- `CourierServer.has_started`. -/
def CourierState.has_started (st : CourierState) : Bool :=
  match st.server with
  | some s => s.hasStarted && st.thread.isSome
  | none => false

/-- `CourierServer.notify_shutdown`: sets the flag and notifies the condition
variable (the notification itself is a no-op on the modelled state). -/
def CourierState.notify_shutdown (st : CourierState) : CourierState :=
  { st with shutdownRequested := true }

/-- `CourierServer.stop`: `notify_shutdown()` then
`assert self._thread is not None; return self._thread`. The state mutation
from `notify_shutdown` happens before the assertion is evaluated. -/
def CourierState.stop (st : CourierState) : CourierState × Except String Nat :=
  let st' := st.notify_shutdown
  match st'.thread with
  | none => (st', Except.error "assert self thread is not None")
  | some t => (st', Except.ok t)

/-- `CourierServer.build_server`: asserts `server_name != ''`; when no
endpoint exists yet, clears the shutdown flag and constructs one (with the
given fresh construction identity), otherwise returns the existing endpoint
unchanged. -/
def CourierState.build_server (st : CourierState) (freshId : Nat) :
    Except String (Endpoint × CourierState) :=
  if st.serverName = some "" then
    Except.error "illegal server_name"
  else
    match st.server with
    | some s => Except.ok (s, st)
    | none =>
      let s : Endpoint := ⟨st.serverName, st.port, freshId, false⟩
      Except.ok (s, { st with server := some s, shutdownRequested := false })

/-- The `heartbeat(sender_addr, is_alive)` binding: sets `last_heartbeat` to
the current time unconditionally; then, unless the sender address is empty,
registers the sender at `self._last_heartbeat` when alive and unregisters it
otherwise (under `self._states_lock` in the source). -/
def CourierState.heartbeat (st : CourierState) (now : Int) (senderAddr : String)
    (isAlive : Bool) : CourierState :=
  let st' := { st with lastHeartbeat := now }
  if senderAddr = "" then st'
  else if isAlive then
    { st' with heartbeats := st'.heartbeats.register senderAddr st'.lastHeartbeat }
  else
    { st' with heartbeats := st'.heartbeats.unregister senderAddr }

/-- `CourierServer.shutdown_server`: when `has_started`, stops the endpoint
and releases it (`self._server = None`); otherwise does nothing. -/
def CourierState.shutdown_server (st : CourierState) : CourierState :=
  if st.has_started then { st with server := none } else st

/-- `_HRTBT_INTERVAL_SECS = 30`. -/
def hrtbtIntervalSecs : Int := 30

/-- The `pickled_maybe_make` binding. `execResult` is the outcome of
`lazy_fns.maybe_make(maybe_lazy)` (`.error e` = the execution raised `e`);
`dumps` is the opaque serializer, applied to either the value or — when
`return_exception` is set and the execution raised — the exception object
itself. A serializer failure always propagates (the source catches
`TypeError` only to log it and then re-raises). -/
def pickled_maybe_make (execResult : Except String Int)
    (dumps : Except String Int → Except String String)
    (returnException : Bool) : Except String String :=
  match execResult with
  | Except.ok v => dumps (Except.ok v)
  | Except.error e =>
    if returnException then dumps (Except.error e) else Except.error e

/-- A server handle, for the `__eq__` analysis: either a base `CourierServer`
or a `PrefetchedCourierServer` (which adds `prefetch_size`). `address` is the
resolved address and `autoShutdownSecs` the configured timeout. -/
inductive ServerHandle where
  | base (address : String) (autoShutdownSecs : Int)
  | prefetched (address : String) (autoShutdownSecs : Int) (prefetchSize : Nat)
deriving Repr, DecidableEq

def ServerHandle.address : ServerHandle → String
  | ServerHandle.base a _ => a
  | ServerHandle.prefetched a _ _ => a

def ServerHandle.autoShutdownSecs : ServerHandle → Int
  | ServerHandle.base _ s => s
  | ServerHandle.prefetched _ s _ => s

/-- `CourierServer.__eq__(self, other)` (lines 106-111):
`isinstance(other, CourierServer)` — true for both handle kinds here — plus
equal resolved address and equal `auto_shutdown_secs`. -/
def courierServerDunderEq (self other : ServerHandle) : Bool :=
  (self.address == other.address) &&
    (self.autoShutdownSecs == other.autoShutdownSecs)

/-- `PrefetchedCourierServer.__eq__(self, other)` (lines 271-276):
`super().__eq__(other) and isinstance(other, PrefetchedCourierServer) and
self.prefetch_size == other.prefetch_size`. It is only ever invoked with a
prefetched `self`. -/
def prefetchedDunderEq (self other : ServerHandle) : Bool :=
  courierServerDunderEq self other &&
    (match self, other with
     | ServerHandle.prefetched _ _ p, ServerHandle.prefetched _ _ p2 => p == p2
     | _, _ => false)

/-- Python `a == b` for these classes, including the reflected-dispatch
rule: when the right operand's class is a proper subclass of the left's and
overrides `__eq__` (left `CourierServer`, right `PrefetchedCourierServer`),
`PrefetchedCourierServer.__eq__(b, a)` runs first, and since both `__eq__`
bodies always return a bool (never `NotImplemented`), that call decides;
in every other pairing `type(a).__eq__(a, b)` decides. -/
def ServerHandle.eqDispatch (a b : ServerHandle) : Bool :=
  match a, b with
  | ServerHandle.base _ _, ServerHandle.prefetched _ _ _ =>
    prefetchedDunderEq b a
  | ServerHandle.base _ _, ServerHandle.base _ _ =>
    courierServerDunderEq a b
  | ServerHandle.prefetched _ _ _, _ =>
    prefetchedDunderEq a b

/-- The condition beyond equal address and `auto_shutdown_secs` that the
program's `==` additionally enforces: the two handles are of the same class,
and prefetched handles also share `prefetch_size`. -/
def ServerHandle.sameClassAndPrefetch : ServerHandle → ServerHandle → Prop
  | ServerHandle.base _ _, ServerHandle.base _ _ => True
  | ServerHandle.prefetched _ _ p, ServerHandle.prefetched _ _ p2 => p = p2
  | _, _ => False

/-- One observable event while `run_until_shutdown` holds (or has released)
the shutdown condition variable:
* `wake now` — the lifecycle loop reaches the loop head (entry, or return
  from `wait(_HRTBT_INTERVAL_SECS)`) and samples `time.time() = now`;
* `heartbeatArrived now` — the `heartbeat` binding fired from an RPC thread
  while the loop was waiting, refreshing `last_heartbeat`;
* `shutdownNotified` — `notify_shutdown` fired while the loop was waiting. -/
inductive LoopEvent where
  | wake (now : Int)
  | heartbeatArrived (now : Int)
  | shutdownNotified
deriving Repr, DecidableEq

/-- How the heartbeat-timeout loop came to an end on the modelled trace. -/
inductive LoopExit where
  | requested
  | timedOut
  | stillWaiting
deriving Repr, DecidableEq

/-- The `while not self._shutdown_requested:` loop of `run_until_shutdown`,
run against a trace of events. Each `wake` performs one loop-head check: exit
when the flag is set; otherwise set the flag and exit when
`now - last_heartbeat > auto_shutdown_secs`; otherwise wait
`_HRTBT_INTERVAL_SECS` (the performed wait timeouts are collected in the
returned list) for the next event. An exhausted trace leaves the loop still
waiting. -/
def waitLoop (auto : Int) (st : CourierState) :
    List LoopEvent → CourierState × LoopExit × List Int
  | [] => (st, LoopExit.stillWaiting, [])
  | LoopEvent.heartbeatArrived now :: rest =>
    waitLoop auto { st with lastHeartbeat := now } rest
  | LoopEvent.shutdownNotified :: rest =>
    waitLoop auto { st with shutdownRequested := true } rest
  | LoopEvent.wake now :: rest =>
    if st.shutdownRequested then (st, LoopExit.requested, [])
    else if now - st.lastHeartbeat > auto then
      ({ st with shutdownRequested := true }, LoopExit.timedOut, [])
    else
      ((waitLoop auto st rest).1, (waitLoop auto st rest).2.1,
        hrtbtIntervalSecs :: (waitLoop auto st rest).2.2)

/-- `if not courier_server.has_started: courier_server.Start()` at the top of
`run_until_shutdown`. -/
def startEndpoint (srv : Endpoint) (st1 : CourierState) : CourierState :=
  if srv.hasStarted then st1
  else { st1 with server := some { srv with hasStarted := true } }

/-- After the wait loop has exited, `shutdown_server` runs; on a trace too
short for the loop to exit, the endpoint is of course not yet stopped. -/
def afterLoop : CourierState × LoopExit × List Int →
    CourierState × LoopExit × List Int
  | (st4, LoopExit.stillWaiting, ws) => (st4, LoopExit.stillWaiting, ws)
  | (st4, ex, ws) => (st4.shutdown_server, ex, ws)

/-- `CourierServer.run_until_shutdown`: builds the endpoint (propagating the
empty-name assertion), starts it if needed, records
`last_heartbeat = time.time()` (`entryNow`), runs the wait loop over the
event trace, and — once the loop has exited — stops and releases the
endpoint via `shutdown_server`. -/
def CourierState.run_until_shutdown (st : CourierState) (freshId : Nat)
    (entryNow : Int) (events : List LoopEvent) :
    Except String (CourierState × LoopExit × List Int) :=
  match st.build_server freshId with
  | Except.error e => Except.error e
  | Except.ok (srv, st1) =>
    Except.ok (afterLoop (waitLoop
      ({ startEndpoint srv st1 with lastHeartbeat := entryNow }).autoShutdownSecs
      { startEndpoint srv st1 with lastHeartbeat := entryNow } events))

/-- Modelled from the spec: the terminal slot of an `IteratorQueue` holds
either the generator's return value or the exception that crashed it. -/
inductive TerminalSlot where
  | returned (ret : List Int)
  | raised (e : String)
deriving Repr, DecidableEq

/-- Modelled from the spec (the source `iter_utils.py` is not part of this
module): an `IteratorQueue` is a bounded FIFO buffer plus one terminal slot;
`stop_enqueue` raises a flag telling the producer to stop. Buffered items
are integers; the blocking behaviour of `flush` is not modelled — the queue
value is its state at the moment the call returns. -/
structure IteratorQueue where
  maxSize : Nat
  buffer : List Int
  terminal : Option TerminalSlot
  stopRequested : Bool
deriving Repr, DecidableEq

/-- Modelled from the spec: `exhausted` is true only once the terminal slot
is set and all buffered items have been drained. -/
def IteratorQueue.exhausted (q : IteratorQueue) : Bool :=
  q.terminal.isSome && q.buffer.isEmpty

/-- `self._generator.exception`: the stored exception, when the generator
crashed. -/
def IteratorQueue.exception (q : IteratorQueue) : Option String :=
  match q.terminal with
  | some (TerminalSlot.raised e) => some e
  | _ => none

/-- `self._generator.returned`: the stored return value (empty until normal
completion). -/
def IteratorQueue.returned (q : IteratorQueue) : List Int :=
  match q.terminal with
  | some (TerminalSlot.returned r) => r
  | _ => []

/-- Modelled from the spec: Python truthiness of an `IteratorQueue`
(`if not self._generator:` in `_next_batch_from_iterator`). A queue is
truthy while it still has data to deliver, i.e. while it is not exhausted;
this is the only reading under which the falsy branch may read
`self._generator.returned` (terminal slot necessarily set). -/
def IteratorQueue.isTruthy (q : IteratorQueue) : Bool :=
  !q.exhausted

/-- Modelled from the spec: `flush(batch_size, block=True)` dequeues up to
`batch_size` items, or all currently buffered items when `batch_size == 0`,
in FIFO order. -/
def IteratorQueue.flush (q : IteratorQueue) (batchSize : Nat) :
    List Int × IteratorQueue :=
  if batchSize = 0 then (q.buffer, { q with buffer := [] })
  else (q.buffer.take batchSize, { q with buffer := q.buffer.drop batchSize })

/-- Modelled from the spec: `stop_enqueue` signals the producer to stop
feeding the queue. -/
def IteratorQueue.stop_enqueue (q : IteratorQueue) : IteratorQueue :=
  { q with stopRequested := true }

/-- An element of the list returned by `_next_batch_from_iterator`: a data
item, or one of the two terminal sentinels — the generator's exception, or
`StopIteration(*returned)`. -/
inductive StreamElem where
  | item (v : Int)
  | excSentinel (e : String)
  | stopSentinel (ret : List Int)
deriving Repr, DecidableEq

def StreamElem.isSentinel : StreamElem → Bool
  | StreamElem.item _ => false
  | StreamElem.excSentinel _ => true
  | StreamElem.stopSentinel _ => true

/-- The message of the `assert self._generator is not None` failure. -/
def generatorNotSetMsg : String :=
  "Generator is not set, the worker might crashed unexpectedly previously."

/-- `_next_batch_from_iterator(batch_size)`: asserts that a generator was
initialized, flushes up to `batch_size` items, and — when the flushed queue
is falsy (exhausted) — appends the terminal sentinel: the stored exception
if the generator crashed, else `StopIteration(*self._generator.returned)`.
Returns the produced list together with the queue state after the flush. -/
def next_batch_from_iterator (gen : Option IteratorQueue) (batchSize : Nat) :
    Except String (List StreamElem × IteratorQueue) :=
  match gen with
  | none => Except.error generatorNotSetMsg
  | some q =>
    let fl := q.flush batchSize
    let result := fl.1.map StreamElem.item
    let result :=
      if !fl.2.isTruthy then
        match fl.2.exception with
        | some e => result ++ [StreamElem.excSentinel e]
        | none => result ++ [StreamElem.stopSentinel fl.2.returned]
      else result
    Except.ok (result, fl.2)

/-- `next_from_iterator()`: `_next_batch_from_iterator(batch_size=1)[0]`
(`none` models the `IndexError` of `[0]` on an empty list). -/
def next_from_iterator (gen : Option IteratorQueue) :
    Except String (Option StreamElem × IteratorQueue) :=
  match next_batch_from_iterator gen 1 with
  | Except.error e => Except.error e
  | Except.ok (res, q') => Except.ok (res.head?, q')

/-- The `PrefetchedCourierServer` attributes the generator protocol uses. -/
structure PrefetchState where
  prefetchSize : Nat
  generator : Option IteratorQueue
  enqueueThread : Option Nat
deriving Repr, DecidableEq

/-- The externally visible steps `pickled_init_iterator` performs, in
order. -/
inductive InitAction where
  | warnPrevActive
  | stopEnqueuePrev
  | joinPrevThread
  | createQueue (capacity : Nat)
  | startProducerThread (daemon : Bool)
  | notifyShutdownLock
deriving Repr, DecidableEq

/-- A fresh, empty bounded queue of the given capacity
(`IteratorQueue(self.prefetch_size, ignore_error=True, ...)`). -/
def freshQueue (capacity : Nat) : IteratorQueue :=
  { maxSize := capacity, buffer := [], terminal := none, stopRequested := false }

/-- `pickled_init_iterator`: raises `TypeError` when the materialized lazy
object is not iterable; when a previous generator exists and is not
exhausted, warns, signals it to stop enqueueing and joins its producer
thread (when one exists); then installs a fresh bounded queue of capacity
`prefetch_size` and starts a daemon producer thread (`threadId`), finally
notifying the shutdown condition variable. Also returns the ordered list of
performed actions. -/
def pickled_init_iterator (st : PrefetchState) (resultIsIterable : Bool)
    (threadId : Nat) : Except String (PrefetchState × List InitAction) :=
  if !resultIsIterable then
    Except.error "The result is not a generator"
  else
    let pre : PrefetchState × List InitAction :=
      match st.generator with
      | some q =>
        if !q.exhausted then
          ({ st with generator := some q.stop_enqueue },
           [InitAction.warnPrevActive, InitAction.stopEnqueuePrev] ++
             (if st.enqueueThread.isSome then [InitAction.joinPrevThread] else []))
        else (st, [])
      | none => (st, [])
    let st1 := pre.1
    Except.ok
      ({ st1 with
          generator := some (freshQueue st.prefetchSize)
          enqueueThread := some threadId },
       pre.2 ++
         [InitAction.createQueue st.prefetchSize,
          InitAction.startProducerThread true,
          InitAction.notifyShutdownLock])

/-! ### Helper lemmas -/

theorem find_map_overwrite (l : List (String × Int)) (a : String) (t : Int)
    (h : (l.find? (fun kv => kv.1 == a)).isSome = true) :
    ((l.map (fun kv => if kv.1 == a then (kv.1, t) else kv)).find?
        (fun kv => kv.1 == a)) = some (a, t) := by
  rw [List.find?_map]
  have hcomp :
      ((fun kv : String × Int => kv.1 == a) ∘
        (fun kv => if kv.1 == a then (kv.1, t) else kv)) =
        fun kv : String × Int => kv.1 == a := by
    funext kv
    by_cases hk : kv.1 = a <;> simp [Function.comp, hk]
  rw [hcomp]
  obtain ⟨x, hx⟩ := Option.isSome_iff_exists.mp h
  have hpx := List.find?_some hx
  have hxa : x.1 = a := by simpa using hpx
  rw [hx]
  simp only [Option.map_some']
  simp [hpx, hxa]

theorem find_append_new (l : List (String × Int)) (a : String) (t : Int)
    (h : (l.find? (fun kv => kv.1 == a)).isSome = false) :
    ((l ++ [(a, t)]).find? (fun kv => kv.1 == a)) = some (a, t) := by
  have hnone : l.find? (fun kv => kv.1 == a) = none :=
    Option.not_isSome_iff_eq_none.mp (by simp [h])
  rw [List.find?_append, hnone]
  simp

theorem find_filter_ne (l : List (String × Int)) (a : String) :
    ((l.filter (fun kv => kv.1 != a)).find? (fun kv => kv.1 == a)) = none := by
  rw [List.find?_filter, List.find?_eq_none]
  intro x hx
  by_cases hxa : x.1 = a <;> simp [hxa]

theorem HeartbeatRegistry.get_set (r : HeartbeatRegistry) (a : String) (t : Int) :
    (r.set a t).get a = some t := by
  unfold HeartbeatRegistry.set
  by_cases h : (r.clients.find? (fun kv => kv.1 == a)).isSome = true
  · rw [if_pos (by unfold HeartbeatRegistry.get; rw [Option.isSome_map']; exact h)]
    unfold HeartbeatRegistry.get
    rw [show ((⟨r.clients.map fun kv => if kv.1 == a then (kv.1, t) else kv⟩ :
        HeartbeatRegistry).clients) =
        r.clients.map (fun kv => if kv.1 == a then (kv.1, t) else kv) from rfl]
    rw [find_map_overwrite r.clients a t h]
    rfl
  · have hfalse : (r.clients.find? (fun kv => kv.1 == a)).isSome = false :=
      Bool.of_not_eq_true h
    rw [if_neg (by unfold HeartbeatRegistry.get; rw [Option.isSome_map']; exact h)]
    unfold HeartbeatRegistry.get
    rw [show ((⟨r.clients ++ [(a, t)]⟩ : HeartbeatRegistry).clients) =
        r.clients ++ [(a, t)] from rfl]
    rw [find_append_new r.clients a t hfalse]
    rfl

theorem HeartbeatRegistry.get_register (r : HeartbeatRegistry) (a : String) (t : Int) :
    (r.register a t).get a = some t :=
  HeartbeatRegistry.get_set r a t

theorem HeartbeatRegistry.get_unregister (r : HeartbeatRegistry) (a : String) :
    (r.unregister a).get a = none := by
  unfold HeartbeatRegistry.unregister HeartbeatRegistry.get
  simp [find_filter_ne]


/-! ### Claim theorems -/

/-- C2: the claim (and the spec) say `HeartbeatRegistry.update` on a
registered address keeps the max of the old and new timestamp and returns
normally, raising a usage error only for unregistered addresses. The code
contradicts its own docstring and error message: the `raise` is not under an
`else`, so on the registry `{"a": 1}` the call `update("a", 2)` stores
`max 1 2 = 2` and then still raises `ValueError('address a is not
registered.')` although `"a"` is registered. -/
theorem update_raises_even_when_registered :
    HeartbeatRegistry.update ⟨[("a", 1)]⟩ "a" 2 =
      (⟨[("a", 2)]⟩, some "address a is not registered.") ∧
    (HeartbeatRegistry.get ⟨[("a", 1)]⟩ "a").isSome = true := by
  constructor
  · rfl
  · rfl

/-- C3: when the lazy payload's execution raises, `pickled_maybe_make`
propagates the failure if `return_exception` is false, and serializes the
exception object as the result if it is true; a failure of the serializer on
the result propagates as an error in both flag settings. -/
theorem maybe_make_error_propagation
    (dumps : Except String Int → Except String String) (e : String) :
    (pickled_maybe_make (Except.error e) dumps false = Except.error e) ∧
    (∀ b, dumps (Except.error e) = Except.ok b →
      pickled_maybe_make (Except.error e) dumps true = Except.ok b) ∧
    (∀ e2, dumps (Except.error e) = Except.error e2 →
      pickled_maybe_make (Except.error e) dumps true = Except.error e2) ∧
    (∀ v e2, dumps (Except.ok v) = Except.error e2 →
      pickled_maybe_make (Except.ok v) dumps false = Except.error e2 ∧
      pickled_maybe_make (Except.ok v) dumps true = Except.error e2) := by
  refine ⟨rfl, ?_, ?_, ?_⟩
  · intro b hb
    simpa [pickled_maybe_make] using hb
  · intro e2 hb
    simpa [pickled_maybe_make] using hb
  · intro v e2 hb
    exact ⟨by simpa [pickled_maybe_make] using hb,
      by simpa [pickled_maybe_make] using hb⟩

theorem maybe_make_error_propagation_witness :
    pickled_maybe_make (Except.error "E")
        (fun _ => Except.error "unpicklable") true = Except.error "unpicklable" :=
  (maybe_make_error_propagation (fun _ => Except.error "unpicklable") "E").2.2.1
    "unpicklable" rfl

/-- C4, counterexample: "equal iff same resolved address and same
`auto_shutdown_secs`" fails on the code at two concrete inputs: (a) two
`PrefetchedCourierServer` handles with equal address and
`auto_shutdown_secs` but `prefetch_size` 2 vs 3 compare unequal
(`PrefetchedCourierServer.__eq__` also compares `prefetch_size`); (b) a base
`CourierServer` handle and a `PrefetchedCourierServer` handle with equal
address and `auto_shutdown_secs` compare unequal (the subclass's reflected
`__eq__` runs first and its `isinstance` check fails). -/
theorem server_eq_ignores_prefetch_size_fails :
    (ServerHandle.eqDispatch (ServerHandle.prefetched "addr" 1 2)
        (ServerHandle.prefetched "addr" 1 3) = false ∧
      (ServerHandle.prefetched "addr" 1 2).address =
        (ServerHandle.prefetched "addr" 1 3).address ∧
      (ServerHandle.prefetched "addr" 1 2).autoShutdownSecs =
        (ServerHandle.prefetched "addr" 1 3).autoShutdownSecs) ∧
    (ServerHandle.eqDispatch (ServerHandle.base "addr" 1)
        (ServerHandle.prefetched "addr" 1 2) = false ∧
      (ServerHandle.base "addr" 1).address =
        (ServerHandle.prefetched "addr" 1 2).address ∧
      (ServerHandle.base "addr" 1).autoShutdownSecs =
        (ServerHandle.prefetched "addr" 1 2).autoShutdownSecs) := by
  exact ⟨⟨by decide, rfl, rfl⟩, ⟨by decide, rfl, rfl⟩⟩

/-- C4, amended: two server handles compare equal iff they are of the same
class, have the same resolved address and the same `auto_shutdown_secs`,
and — for two prefetched handles — the same `prefetch_size`; in particular
the relation is symmetric and cross-class pairs are never equal. -/
theorem server_eq_amended (a b : ServerHandle) :
    ServerHandle.eqDispatch a b = true ↔
      (a.address = b.address ∧ a.autoShutdownSecs = b.autoShutdownSecs ∧
        ServerHandle.sameClassAndPrefetch a b) := by
  cases a <;> cases b <;>
    simp [ServerHandle.eqDispatch, courierServerDunderEq, prefetchedDunderEq,
      ServerHandle.sameClassAndPrefetch, ServerHandle.address,
      ServerHandle.autoShutdownSecs] <;>
    aesop

theorem server_eq_amended_witness :
    ServerHandle.eqDispatch (ServerHandle.base "a" 1) (ServerHandle.base "a" 1) = true :=
  (server_eq_amended (ServerHandle.base "a" 1) (ServerHandle.base "a" 1)).mpr
    ⟨rfl, rfl, trivial⟩

/-- C8: `build_server` fails (assertion) when `server_name` is the empty
string, and is otherwise idempotent: when an endpoint already exists, it is
returned as-is and the state is unchanged (no new endpoint is constructed —
in particular the construction identity of the result is the existing
one). -/
theorem build_server_empty_name_and_idempotent :
    (∀ st fid, st.serverName = some "" →
      CourierState.build_server st fid = Except.error "illegal server_name") ∧
    (∀ st fid s, st.serverName ≠ some "" → st.server = some s →
      CourierState.build_server st fid = Except.ok (s, st)) := by
  constructor
  · intro st fid h
    simp [CourierState.build_server, h]
  · intro st fid s hn hs
    simp [CourierState.build_server, hn, hs]

theorem build_server_empty_name_and_idempotent_witness :
    CourierState.build_server
        ⟨some "srv", none, 10, some ⟨some "srv", none, 7, true⟩, none, 0, false, ⟨[]⟩⟩
        99 =
      Except.ok (⟨some "srv", none, 7, true⟩,
        ⟨some "srv", none, 10, some ⟨some "srv", none, 7, true⟩, none, 0, false,
          ⟨[]⟩⟩) :=
  build_server_empty_name_and_idempotent.2
    ⟨some "srv", none, 10, some ⟨some "srv", none, 7, true⟩, none, 0, false, ⟨[]⟩⟩
    99 ⟨some "srv", none, 7, true⟩ (by decide) rfl

/-- C10: `stop()` on a server whose lifecycle thread was never launched
fails the `assert self._thread is not None` instead of returning a thread
handle (while still setting the shutdown flag first); with a launched thread
it returns the handle; and `notify_shutdown()` succeeds from any lifecycle
state, setting the shutdown-requested flag. -/
theorem stop_asserts_lifecycle_thread :
    (∀ st, st.thread = none →
      (CourierState.stop st).2 = Except.error "assert self thread is not None") ∧
    (∀ st t, st.thread = some t → (CourierState.stop st).2 = Except.ok t) ∧
    (∀ st, (CourierState.notify_shutdown st).shutdownRequested = true ∧
      (CourierState.stop st).1.shutdownRequested = true) := by
  refine ⟨?_, ?_, ?_⟩
  · intro st h
    simp [CourierState.stop, CourierState.notify_shutdown, h]
  · intro st t h
    simp [CourierState.stop, CourierState.notify_shutdown, h]
  · intro st
    refine ⟨rfl, ?_⟩
    simp [CourierState.stop, CourierState.notify_shutdown]
    rcases st.thread with _ | t <;> simp

theorem stop_asserts_lifecycle_thread_witness :
    (CourierState.stop ⟨none, none, 10, none, none, 0, false, ⟨[]⟩⟩).2 =
      Except.error "assert self thread is not None" :=
  stop_asserts_lifecycle_thread.1 ⟨none, none, 10, none, none, 0, false, ⟨[]⟩⟩ rfl

/-- C7: every `heartbeat(sender_addr, is_alive)` call sets `last_heartbeat`
to the current time unconditionally; with an empty sender address the
registry (and everything else) is untouched; with a non-empty address the
sender is registered at the new timestamp when `is_alive` is true and
unregistered when it is false. -/
theorem heartbeat_binding_registry (st : CourierState) (now : Int)
    (senderAddr : String) (isAlive : Bool) :
    (CourierState.heartbeat st now senderAddr isAlive).lastHeartbeat = now ∧
    (senderAddr = "" →
      CourierState.heartbeat st now senderAddr isAlive =
        { st with lastHeartbeat := now }) ∧
    (senderAddr ≠ "" → isAlive = true →
      (CourierState.heartbeat st now senderAddr isAlive).heartbeats =
        st.heartbeats.register senderAddr now ∧
      (CourierState.heartbeat st now senderAddr isAlive).heartbeats.get
        senderAddr = some now) ∧
    (senderAddr ≠ "" → isAlive = false →
      (CourierState.heartbeat st now senderAddr isAlive).heartbeats =
        st.heartbeats.unregister senderAddr ∧
      (CourierState.heartbeat st now senderAddr isAlive).heartbeats.get
        senderAddr = none) := by
  refine ⟨?_, ?_, ?_, ?_⟩
  · by_cases h : senderAddr = ""
    · simp [CourierState.heartbeat, h]
    · cases isAlive <;> simp [CourierState.heartbeat, h]
  · intro h
    simp [CourierState.heartbeat, h]
  · intro h ha
    subst ha
    refine ⟨by simp [CourierState.heartbeat, h], ?_⟩
    simp [CourierState.heartbeat, h, HeartbeatRegistry.get_register]
  · intro h ha
    subst ha
    refine ⟨by simp [CourierState.heartbeat, h], ?_⟩
    simp [CourierState.heartbeat, h, HeartbeatRegistry.get_unregister]

theorem heartbeat_binding_registry_witness :
    (CourierState.heartbeat ⟨none, none, 10, none, none, 0, false, ⟨[]⟩⟩ 5 "w"
        true).heartbeats.get "w" = some 5 :=
  ((heartbeat_binding_registry ⟨none, none, 10, none, none, 0, false, ⟨[]⟩⟩ 5 "w"
      true).2.2.1 (by decide) rfl).2

theorem filter_sentinel_map_item (l : List Int) :
    (l.map StreamElem.item).filter StreamElem.isSentinel = [] := by
  induction l with
  | nil => rfl
  | cons x xs ih => simp [List.filter_cons, StreamElem.isSentinel, ih]

theorem init_result_shape (st : PrefetchState) (tid : Nat) (st' : PrefetchState)
    (acts : List InitAction)
    (h : pickled_init_iterator st true tid = Except.ok (st', acts)) :
    st' = ⟨st.prefetchSize, some (freshQueue st.prefetchSize), some tid⟩ := by
  cases hg : st.generator with
  | none =>
    have hred : pickled_init_iterator st true tid =
        Except.ok
          ((⟨st.prefetchSize, some (freshQueue st.prefetchSize), some tid⟩ :
              PrefetchState),
            [InitAction.createQueue st.prefetchSize,
             InitAction.startProducerThread true,
             InitAction.notifyShutdownLock]) := by
      simp [pickled_init_iterator, hg]
    rw [hred] at h
    simp only [Except.ok.injEq, Prod.mk.injEq] at h
    exact h.1.symm
  | some q =>
    by_cases he : q.exhausted = true
    · have hred : pickled_init_iterator st true tid =
          Except.ok
            ((⟨st.prefetchSize, some (freshQueue st.prefetchSize), some tid⟩ :
                PrefetchState),
              [InitAction.createQueue st.prefetchSize,
               InitAction.startProducerThread true,
               InitAction.notifyShutdownLock]) := by
        simp [pickled_init_iterator, hg, he]
      rw [hred] at h
      simp only [Except.ok.injEq, Prod.mk.injEq] at h
      exact h.1.symm
    · have hf : q.exhausted = false := Bool.of_not_eq_true he
      cases hthread : st.enqueueThread with
      | none =>
        have hred : pickled_init_iterator st true tid =
            Except.ok
              ((⟨st.prefetchSize, some (freshQueue st.prefetchSize), some tid⟩ :
                  PrefetchState),
                [InitAction.warnPrevActive, InitAction.stopEnqueuePrev,
                 InitAction.createQueue st.prefetchSize,
                 InitAction.startProducerThread true,
                 InitAction.notifyShutdownLock]) := by
          simp [pickled_init_iterator, hg, hf, hthread]
        rw [hred] at h
        simp only [Except.ok.injEq, Prod.mk.injEq] at h
        exact h.1.symm
      | some tid0 =>
        have hred : pickled_init_iterator st true tid =
            Except.ok
              ((⟨st.prefetchSize, some (freshQueue st.prefetchSize), some tid⟩ :
                  PrefetchState),
                [InitAction.warnPrevActive, InitAction.stopEnqueuePrev,
                 InitAction.joinPrevThread,
                 InitAction.createQueue st.prefetchSize,
                 InitAction.startProducerThread true,
                 InitAction.notifyShutdownLock]) := by
          simp [pickled_init_iterator, hg, hf, hthread]
        rw [hred] at h
        simp only [Except.ok.injEq, Prod.mk.injEq] at h
        exact h.1.symm

/-- C6: when `init_generator` runs with an iterable payload while a previous
generator exists and is not exhausted (and its producer thread is present),
the previous generator is stop-enqueue signalled and its producer thread
joined BEFORE the new bounded queue of capacity `prefetch_size` and the new
daemon producer thread are created — the resulting state holds exactly one
generator/producer-thread pair. -/
theorem init_generator_supersedes (st : PrefetchState) (tid : Nat)
    (q : IteratorQueue) (hq : st.generator = some q) (hne : q.exhausted = false)
    (ht : st.enqueueThread.isSome = true) :
    pickled_init_iterator st true tid =
      Except.ok
        ((⟨st.prefetchSize, some (freshQueue st.prefetchSize), some tid⟩ :
            PrefetchState),
          [InitAction.warnPrevActive, InitAction.stopEnqueuePrev,
           InitAction.joinPrevThread, InitAction.createQueue st.prefetchSize,
           InitAction.startProducerThread true,
           InitAction.notifyShutdownLock]) := by
  simp [pickled_init_iterator, hq, hne, ht]

theorem init_generator_supersedes_witness :
    pickled_init_iterator ⟨3, some ⟨3, [1], none, false⟩, some 0⟩ true 1 =
      Except.ok
        ((⟨3, some (freshQueue 3), some 1⟩ : PrefetchState),
          [InitAction.warnPrevActive, InitAction.stopEnqueuePrev,
           InitAction.joinPrevThread, InitAction.createQueue 3,
           InitAction.startProducerThread true,
           InitAction.notifyShutdownLock]) :=
  init_generator_supersedes ⟨3, some ⟨3, [1], none, false⟩, some 0⟩ 1
    ⟨3, [1], none, false⟩ rfl rfl rfl

/-- C9: fetching from the generator protocol before any `init_generator` is
a fatal precondition failure (the `assert self._generator is not None`
raises instead of returning a value); with a generator installed the call
always returns normally, and a successful `init_generator` always leaves a
generator installed — so under that precondition the failure branch is
unreachable. -/
theorem next_batch_requires_init :
    (∀ b, next_batch_from_iterator none b = Except.error generatorNotSetMsg) ∧
    (∀ q b, ∃ res q',
      next_batch_from_iterator (some q) b = Except.ok (res, q')) ∧
    (∀ st tid st' acts,
      pickled_init_iterator st true tid = Except.ok (st', acts) →
      st'.generator = some (freshQueue st.prefetchSize)) := by
  refine ⟨fun b => rfl, fun q b => ⟨_, _, rfl⟩, ?_⟩
  intro st tid st' acts h
  rw [init_result_shape st tid st' acts h]

theorem next_batch_requires_init_witness :
    next_batch_from_iterator none 0 = Except.error generatorNotSetMsg ∧
    ((⟨2, some (freshQueue 2), some 0⟩ : PrefetchState).generator =
      some (freshQueue 2)) :=
  ⟨next_batch_requires_init.1 0,
    next_batch_requires_init.2.2 ⟨2, none, none⟩ 0 ⟨2, some (freshQueue 2), some 0⟩
      [InitAction.createQueue 2, InitAction.startProducerThread true,
       InitAction.notifyShutdownLock] rfl⟩

/-- C1, counterexample: a batch fetched while the queue still holds buffered
items and the producer is still active (terminal slot unset) carries NO
terminal sentinel — the claim that every returned sequence ends with exactly
one sentinel fails. Here the queue buffers `[5, 6]`, the producer has not
terminated, and `next_batch_from_generator(1)` returns just `[item 5]`. -/
theorem next_batch_sentinel_counterexample :
    next_batch_from_iterator
        (some { maxSize := 2, buffer := [5, 6], terminal := none,
                stopRequested := false }) 1 =
      Except.ok ([StreamElem.item 5],
        { maxSize := 2, buffer := [6], terminal := none,
          stopRequested := false }) ∧
    StreamElem.isSentinel (StreamElem.item 5) = false := by
  exact ⟨rfl, rfl⟩

/-- C1, amended: a batch returned by `next_batch_from_generator` ends with
exactly one terminal sentinel precisely when the flush leaves the queue
exhausted (terminal slot set and buffer drained); that sentinel is the
generator's stored exception if it crashed, otherwise a stop-iteration
sentinel carrying the generator's return value; a batch fetched while the
queue is not yet exhausted contains no sentinel at all. -/
theorem next_batch_sentinel_amended (q : IteratorQueue) (b : Nat)
    (res : List StreamElem) (q' : IteratorQueue)
    (h : next_batch_from_iterator (some q) b = Except.ok (res, q')) :
    ((res.filter StreamElem.isSentinel).length =
      if q'.exhausted then 1 else 0) ∧
    (q'.exhausted = false → res = (q.flush b).1.map StreamElem.item) ∧
    (∀ e, q'.terminal = some (TerminalSlot.raised e) → q'.exhausted = true →
      res.getLast? = some (StreamElem.excSentinel e)) ∧
    (∀ ret, q'.terminal = some (TerminalSlot.returned ret) →
      q'.exhausted = true →
      res.getLast? = some (StreamElem.stopSentinel ret)) := by
  unfold next_batch_from_iterator at h
  simp only [Except.ok.injEq, Prod.mk.injEq] at h
  obtain ⟨hres, hq'⟩ := h
  subst hq'
  by_cases hex : (q.flush b).2.exhausted = true
  · cases hterm : (q.flush b).2.terminal with
    | none =>
      exfalso
      unfold IteratorQueue.exhausted at hex
      rw [hterm] at hex
      simp at hex
    | some t =>
      cases t with
      | raised e1 =>
        have hres2 : res =
            ((q.flush b).1.map StreamElem.item) ++ [StreamElem.excSentinel e1] := by
          rw [← hres]
          simp [IteratorQueue.isTruthy, hex, IteratorQueue.exception, hterm]
        refine ⟨?_, ?_, ?_, ?_⟩
        · rw [hres2, List.filter_append, filter_sentinel_map_item]
          simp [hex, StreamElem.isSentinel]
        · intro hfalse
          rw [hex] at hfalse
          cases hfalse
        · intro e he _
          have he2 : e1 = e := by
            injection he with he1
            injection he1
          rw [hres2, List.getLast?_concat, he2]
        · intro ret hr _
          exact absurd hr (by simp)
      | returned ret1 =>
        have hres2 : res =
            ((q.flush b).1.map StreamElem.item) ++
              [StreamElem.stopSentinel ((q.flush b).2.returned)] := by
          rw [← hres]
          simp [IteratorQueue.isTruthy, hex, IteratorQueue.exception, hterm]
        have hret : (q.flush b).2.returned = ret1 := by
          unfold IteratorQueue.returned
          rw [hterm]
        refine ⟨?_, ?_, ?_, ?_⟩
        · rw [hres2, List.filter_append, filter_sentinel_map_item]
          simp [hex, StreamElem.isSentinel]
        · intro hfalse
          rw [hex] at hfalse
          cases hfalse
        · intro e he _
          exact absurd he (by simp)
        · intro ret hr _
          have hr2 : ret1 = ret := by
            injection hr with hr1
            injection hr1
          rw [hres2, List.getLast?_concat, hret, hr2]
  · have hexf : (q.flush b).2.exhausted = false := Bool.of_not_eq_true hex
    have hres2 : res = (q.flush b).1.map StreamElem.item := by
      rw [← hres]
      simp [IteratorQueue.isTruthy, hexf]
    refine ⟨?_, fun _ => hres2, ?_, ?_⟩
    · rw [hres2, filter_sentinel_map_item]
      simp [hexf]
    · intro e _ hext
      rw [hexf] at hext
      cases hext
    · intro ret _ hext
      rw [hexf] at hext
      cases hext

theorem next_batch_sentinel_amended_witness :
    (([StreamElem.stopSentinel [7]].filter StreamElem.isSentinel).length =
      if ({ maxSize := 2, buffer := [], terminal :=
              some (TerminalSlot.returned [7]),
            stopRequested := false } : IteratorQueue).exhausted then 1 else 0) ∧
    ([StreamElem.stopSentinel [7]] : List StreamElem).getLast? =
      some (StreamElem.stopSentinel [7]) :=
  ⟨(next_batch_sentinel_amended
      ⟨2, [], some (TerminalSlot.returned [7]), false⟩ 1
      [StreamElem.stopSentinel [7]]
      ⟨2, [], some (TerminalSlot.returned [7]), false⟩ rfl).1,
    (next_batch_sentinel_amended
      ⟨2, [], some (TerminalSlot.returned [7]), false⟩ 1
      [StreamElem.stopSentinel [7]]
      ⟨2, [], some (TerminalSlot.returned [7]), false⟩ rfl).2.2.2 [7] rfl rfl⟩

theorem waitLoop_waits (auto : Int) (events : List LoopEvent) :
    ∀ st, ∀ w ∈ (waitLoop auto st events).2.2, w = hrtbtIntervalSecs := by
  induction events with
  | nil =>
    intro st w hw
    simp [waitLoop] at hw
  | cons e rest ih =>
    intro st w hw
    cases e with
    | heartbeatArrived now =>
      exact ih { st with lastHeartbeat := now } w (by simpa [waitLoop] using hw)
    | shutdownNotified =>
      exact ih { st with shutdownRequested := true } w
        (by simpa [waitLoop] using hw)
    | wake now =>
      by_cases h1 : st.shutdownRequested = true
      · simp [waitLoop, h1] at hw
      · by_cases h2 : now - st.lastHeartbeat > auto
        · simp [waitLoop, h1, h2] at hw
        · have hred : waitLoop auto st (LoopEvent.wake now :: rest) =
              ((waitLoop auto st rest).1, (waitLoop auto st rest).2.1,
                hrtbtIntervalSecs :: (waitLoop auto st rest).2.2) := by
            simp [waitLoop, h1, h2]
          rw [hred] at hw
          rcases List.mem_cons.mp hw with hw2 | hw2
          · exact hw2
          · exact ih st w hw2

theorem waitLoop_preserves (auto : Int) (events : List LoopEvent) :
    ∀ st, (waitLoop auto st events).1.server = st.server ∧
      (waitLoop auto st events).1.thread = st.thread ∧
      (waitLoop auto st events).1.autoShutdownSecs = st.autoShutdownSecs := by
  induction events with
  | nil => exact fun st => ⟨rfl, rfl, rfl⟩
  | cons e rest ih =>
    intro st
    cases e with
    | heartbeatArrived now =>
      simpa [waitLoop] using ih { st with lastHeartbeat := now }
    | shutdownNotified =>
      simpa [waitLoop] using ih { st with shutdownRequested := true }
    | wake now =>
      by_cases h1 : st.shutdownRequested = true
      · simp [waitLoop, h1]
      · by_cases h2 : now - st.lastHeartbeat > auto
        · simp [waitLoop, h1, h2]
        · simpa [waitLoop, h1, h2] using ih st

theorem waitLoop_timedOut_requested (auto : Int) (events : List LoopEvent) :
    ∀ st, (waitLoop auto st events).2.1 = LoopExit.timedOut →
      (waitLoop auto st events).1.shutdownRequested = true := by
  induction events with
  | nil =>
    intro st h
    simp [waitLoop] at h
  | cons e rest ih =>
    intro st h
    cases e with
    | heartbeatArrived now =>
      exact ih { st with lastHeartbeat := now } (by simpa [waitLoop] using h)
    | shutdownNotified =>
      exact ih { st with shutdownRequested := true }
        (by simpa [waitLoop] using h)
    | wake now =>
      by_cases h1 : st.shutdownRequested = true
      · simp [waitLoop, h1] at h
      · by_cases h2 : now - st.lastHeartbeat > auto
        · simp [waitLoop, h1, h2]
        · have hred : waitLoop auto st (LoopEvent.wake now :: rest) =
              ((waitLoop auto st rest).1, (waitLoop auto st rest).2.1,
                hrtbtIntervalSecs :: (waitLoop auto st rest).2.2) := by
            simp [waitLoop, h1, h2]
          rw [hred] at h ⊢
          exact ih st h

theorem waitLoop_first_wake (auto : Int) (st : CourierState) (t : Int)
    (rest : List LoopEvent) (h1 : st.shutdownRequested = false)
    (h2 : t - st.lastHeartbeat > auto) :
    waitLoop auto st (LoopEvent.wake t :: rest) =
      ({ st with shutdownRequested := true }, LoopExit.timedOut, []) := by
  simp [waitLoop, h1, h2]

theorem build_server_ok_facts (st : CourierState) (fid : Nat) (srv : Endpoint)
    (st1 : CourierState)
    (h : st.build_server fid = Except.ok (srv, st1)) :
    st1.server = some srv ∧ st1.thread = st.thread ∧
    st1.autoShutdownSecs = st.autoShutdownSecs ∧
    (st.shutdownRequested = false → st1.shutdownRequested = false) := by
  unfold CourierState.build_server at h
  by_cases hn : st.serverName = some ""
  · rw [if_pos hn] at h
    exact absurd h (by simp)
  · rw [if_neg hn] at h
    cases hs : st.server with
    | some s =>
      rw [hs] at h
      simp only [Except.ok.injEq, Prod.mk.injEq] at h
      obtain ⟨h1, h2⟩ := h
      subst h2
      exact ⟨by rw [hs, h1], rfl, rfl, fun hf => hf⟩
    | none =>
      rw [hs] at h
      simp only [Except.ok.injEq, Prod.mk.injEq] at h
      obtain ⟨h1, h2⟩ := h
      subst h2
      exact ⟨by simp [← h1], rfl, rfl, fun _ => rfl⟩

theorem startEndpoint_facts (srv : Endpoint) (st1 : CourierState)
    (hsrv : st1.server = some srv) :
    ∃ ep, (startEndpoint srv st1).server = some ep ∧ ep.hasStarted = true ∧
      (startEndpoint srv st1).thread = st1.thread ∧
      (startEndpoint srv st1).autoShutdownSecs = st1.autoShutdownSecs ∧
      (startEndpoint srv st1).shutdownRequested = st1.shutdownRequested := by
  unfold startEndpoint
  by_cases h : srv.hasStarted = true
  · rw [if_pos h]
    exact ⟨srv, hsrv, h, rfl, rfl, rfl⟩
  · rw [if_neg h]
    exact ⟨{ srv with hasStarted := true }, rfl, rfl, rfl, rfl, rfl⟩

/-- C5: the heartbeat-timeout loop records `last_heartbeat = now` on entry
(the very first loop-head check compares against `entryNow`); every wait it
performs uses the fixed 30-second poll interval `_HRTBT_INTERVAL_SECS`; on
any wake where `now - last_heartbeat` exceeds `auto_shutdown_secs` it sets
shutdown-requested and exits the loop; and after a timeout exit the RPC
endpoint is stopped and released (`_server = None`), given the lifecycle
thread exists. -/
theorem run_until_shutdown_heartbeat_loop (st : CourierState) (fid : Nat)
    (entryNow : Int) (events : List LoopEvent) (st' : CourierState)
    (ex : LoopExit) (ws : List Int) (hth : st.thread.isSome = true)
    (h : CourierState.run_until_shutdown st fid entryNow events =
      Except.ok (st', ex, ws)) :
    (∀ w ∈ ws, w = hrtbtIntervalSecs) ∧ hrtbtIntervalSecs = 30 ∧
    (ex = LoopExit.timedOut →
      st'.shutdownRequested = true ∧ st'.server = none) ∧
    (∀ t rest, events = LoopEvent.wake t :: rest →
      st.shutdownRequested = false → t - entryNow > st.autoShutdownSecs →
      ex = LoopExit.timedOut) ∧
    (∀ auto2 (st2 : CourierState) t rest2, st2.shutdownRequested = false →
      t - st2.lastHeartbeat > auto2 →
      waitLoop auto2 st2 (LoopEvent.wake t :: rest2) =
        ({ st2 with shutdownRequested := true }, LoopExit.timedOut, [])) := by
  unfold CourierState.run_until_shutdown at h
  split at h
  · exact absurd h (by simp)
  rename_i srv st1 hb2
  simp only [Except.ok.injEq] at h
  obtain ⟨hsv, hthd, hauto, hreq⟩ := build_server_ok_facts st fid srv st1 hb2
  obtain ⟨ep, hep, hepst, hthd2, hauto2, hreq2⟩ := startEndpoint_facts srv st1 hsv
  have hser3 : ({ startEndpoint srv st1 with lastHeartbeat := entryNow } :
      CourierState).server = some ep := hep
  have hthr3 : ({ startEndpoint srv st1 with lastHeartbeat := entryNow } :
      CourierState).thread = st.thread := hthd2.trans hthd
  have hauto3 : ({ startEndpoint srv st1 with lastHeartbeat := entryNow } :
      CourierState).autoShutdownSecs = st.autoShutdownSecs := hauto2.trans hauto
  have hreq3 : st.shutdownRequested = false →
      ({ startEndpoint srv st1 with lastHeartbeat := entryNow } :
        CourierState).shutdownRequested = false :=
    fun hf => hreq2.trans (hreq hf)
  rcases hR : waitLoop
      ({ startEndpoint srv st1 with lastHeartbeat := entryNow } :
        CourierState).autoShutdownSecs
      { startEndpoint srv st1 with lastHeartbeat := entryNow } events with
    ⟨st4, ex4, ws4⟩
  rw [hR] at h
  have hwaits := waitLoop_waits
      ({ startEndpoint srv st1 with lastHeartbeat := entryNow } :
        CourierState).autoShutdownSecs events
      { startEndpoint srv st1 with lastHeartbeat := entryNow }
  rw [hR] at hwaits
  have hpres := waitLoop_preserves
      ({ startEndpoint srv st1 with lastHeartbeat := entryNow } :
        CourierState).autoShutdownSecs events
      { startEndpoint srv st1 with lastHeartbeat := entryNow }
  rw [hR] at hpres
  have htoR := waitLoop_timedOut_requested
      ({ startEndpoint srv st1 with lastHeartbeat := entryNow } :
        CourierState).autoShutdownSecs events
      { startEndpoint srv st1 with lastHeartbeat := entryNow }
  rw [hR] at htoR
  obtain ⟨hp1, hp2, hp3⟩ := hpres
  cases ex4 with
  | stillWaiting =>
    simp only [afterLoop, Prod.mk.injEq] at h
    obtain ⟨h1, h2, h3⟩ := h
    subst h1
    subst h2
    subst h3
    refine ⟨fun w hw => hwaits w hw, rfl, ?_, ?_, ?_⟩
    · intro hcon
      exact absurd hcon (by simp)
    · intro t rest hev hreqf htime
      subst hev
      have hgt : t - ({ startEndpoint srv st1 with lastHeartbeat := entryNow } :
          CourierState).lastHeartbeat >
          ({ startEndpoint srv st1 with lastHeartbeat := entryNow } :
            CourierState).autoShutdownSecs := by
        rw [hauto3]
        exact htime
      have hfw := waitLoop_first_wake
          ({ startEndpoint srv st1 with lastHeartbeat := entryNow } :
            CourierState).autoShutdownSecs
          { startEndpoint srv st1 with lastHeartbeat := entryNow } t rest
          (hreq3 hreqf) hgt
      rw [hfw] at hR
      simp at hR
    · exact fun auto2 st2 t rest2 hf hgt =>
        waitLoop_first_wake auto2 st2 t rest2 hf hgt
  | requested =>
    simp only [afterLoop, Prod.mk.injEq] at h
    obtain ⟨h1, h2, h3⟩ := h
    subst h1
    subst h2
    subst h3
    refine ⟨fun w hw => hwaits w hw, rfl, ?_, ?_, ?_⟩
    · intro hcon
      exact absurd hcon (by simp)
    · intro t rest hev hreqf htime
      subst hev
      have hgt : t - ({ startEndpoint srv st1 with lastHeartbeat := entryNow } :
          CourierState).lastHeartbeat >
          ({ startEndpoint srv st1 with lastHeartbeat := entryNow } :
            CourierState).autoShutdownSecs := by
        rw [hauto3]
        exact htime
      have hfw := waitLoop_first_wake
          ({ startEndpoint srv st1 with lastHeartbeat := entryNow } :
            CourierState).autoShutdownSecs
          { startEndpoint srv st1 with lastHeartbeat := entryNow } t rest
          (hreq3 hreqf) hgt
      rw [hfw] at hR
      simp at hR
    · exact fun auto2 st2 t rest2 hf hgt =>
        waitLoop_first_wake auto2 st2 t rest2 hf hgt
  | timedOut =>
    simp only [afterLoop, Prod.mk.injEq] at h
    obtain ⟨h1, h2, h3⟩ := h
    subst h1
    subst h2
    subst h3
    have hserver4 : st4.server = some ep := hp1.trans hser3
    have hthread4 : st4.thread = st.thread := hp2.trans hthr3
    have hreq4 : st4.shutdownRequested = true := htoR rfl
    have hhs : st4.has_started = true := by
      unfold CourierState.has_started
      rw [hserver4]
      simp [hepst, hthread4, hth]
    have hshut : st4.shutdown_server = { st4 with server := none } := by
      unfold CourierState.shutdown_server
      rw [if_pos hhs]
    refine ⟨fun w hw => hwaits w hw, rfl, ?_, ?_, ?_⟩
    · intro _
      rw [hshut]
      exact ⟨hreq4, rfl⟩
    · exact fun t rest hev hreqf htime => rfl
    · exact fun auto2 st2 t rest2 hf hgt =>
        waitLoop_first_wake auto2 st2 t rest2 hf hgt

theorem run_until_shutdown_heartbeat_loop_witness :
    (∀ w ∈ ([] : List Int), w = hrtbtIntervalSecs) ∧ hrtbtIntervalSecs = 30 ∧
    (LoopExit.timedOut = LoopExit.timedOut →
      (⟨none, none, 10, none, some 0, 0, true, ⟨[]⟩⟩ :
        CourierState).shutdownRequested = true ∧
      (⟨none, none, 10, none, some 0, 0, true, ⟨[]⟩⟩ :
        CourierState).server = none) ∧
    (∀ t rest, [LoopEvent.wake 100] = LoopEvent.wake t :: rest →
      (⟨none, none, 10, none, some 0, 0, false, ⟨[]⟩⟩ :
        CourierState).shutdownRequested = false →
      t - 0 > (⟨none, none, 10, none, some 0, 0, false, ⟨[]⟩⟩ :
        CourierState).autoShutdownSecs →
      LoopExit.timedOut = LoopExit.timedOut) ∧
    (∀ auto2 (st2 : CourierState) t rest2, st2.shutdownRequested = false →
      t - st2.lastHeartbeat > auto2 →
      waitLoop auto2 st2 (LoopEvent.wake t :: rest2) =
        ({ st2 with shutdownRequested := true }, LoopExit.timedOut, [])) :=
  run_until_shutdown_heartbeat_loop
    ⟨none, none, 10, none, some 0, 0, false, ⟨[]⟩⟩ 1 0 [LoopEvent.wake 100]
    ⟨none, none, 10, none, some 0, 0, true, ⟨[]⟩⟩ LoopExit.timedOut []
    rfl rfl
